import Mathlib

/-
  Verification development for the movie-recommendation backend
  (Express + Mongoose + jsonwebtoken + bcryptjs, single server file).

  The server file is shallowly embedded below: each request handler
  becomes a pure Lean function over an explicit store (a list of user
  records), external calls (the TMDB catalog client, the JWT verifier)
  become function parameters, and JavaScript truthiness of request-body
  values is modelled by an explicit JVal type.
-/

namespace MovieApp

/-- JavaScript value, as it can appear in a JSON request-body field. -/
inductive JVal where
  | num (n : Int)
  | str (s : String)
  | bool (b : Bool)
  | null
  deriving Repr, DecidableEq

/-- Falsiness of a JavaScript value: 0, the empty string, false and null
are falsy; every other number, string and true are truthy. -/
def JVal.falsy : JVal → Bool
  | .num n => n == 0
  | .str s => s == ""
  | .bool b => !b
  | .null => true

/-- Truthiness test of a possibly absent body field, as the handlers
perform it with the JavaScript bang operator: an absent field
(undefined) is falsy. -/
def jsTruthy : Option JVal → Bool
  | none => false
  | some v => !v.falsy

/-- Favorite entry, embedding the schema sub-document
`\x7b movieId: Number, addedAt: Date \x7d` (server file line 27).
Dates are modelled as natural-number timestamps. -/
structure Favorite where
  movieId : Int
  addedAt : Nat
  deriving Repr, DecidableEq

/-- Watchlist entry, from the schema sub-document on line 30. -/
structure WatchEntry where
  movieId : Int
  addedAt : Nat
  deriving Repr, DecidableEq

/-- Watchlist, from the schema sub-document on lines 28-32. -/
structure Watchlist where
  name : String
  movies : List WatchEntry
  createdAt : Nat
  deriving Repr, DecidableEq

/-- Stored user record, embedding userSchema (lines 23-33).  The
identifier models the store-assigned _id; password holds whatever
string is stored (the pre-save hook is what turns plaintext into a
hash). -/
structure User where
  id : Nat
  username : String
  email : String
  password : String
  favorites : List Favorite
  watchlists : List Watchlist
  deriving Repr, DecidableEq

/-- Credential store: the collection of user records. -/
abbrev Store := List User

/-- Store read `User.findById(id)`: first record whose identifier
matches. -/
def findById (store : Store) (id : Nat) : Option User :=
  List.find? (fun u => u.id == id) store

/-- Store read `User.findOne(\x7b email \x7d)` used by the login
handler (line 297). -/
def findByEmail (store : Store) (email : String) : Option User :=
  List.find? (fun u => u.email == email) store

/-- Store read `User.findOne(\x7b $or: [\x7b email \x7d, \x7b username \x7d] \x7d)`
used by the register handler (lines 242-244): one combined lookup
matching on email OR username. -/
def findByEmailOrUsername (store : Store) (email username : String) : Option User :=
  List.find? (fun u => u.email == email || u.username == username) store

/-- Replacement of the record with the given identifier, modelling a
Mongoose document save of a loaded user. -/
def updateUser (store : Store) (id : Nat) (w : User) : Store :=
  List.map (fun u => if u.id == id then w else u) store

/-- Fresh store-assigned identifier for a newly created record. -/
def freshId (store : Store) : Nat :=
  List.foldr (fun (u : User) m => max m (u.id + 1)) 0 store

/-- Modelled from the spec (4.1): the bcryptjs one-way salted hash with
cost parameter 12, called on line 37; the library itself is not part of
this repository, so the hash is idealized as an injective tagging
function. -/
def bhash (plaintext : String) : String := "bcrypt12$" ++ plaintext

/-- Modelled from the spec (4.1): bcrypt.compare as called by
comparePassword (lines 41-43); true exactly when the stored string is
the hash of the candidate. -/
def bcompare (candidate stored : String) : Bool := bhash candidate == stored

/-- Mongoose document about to be saved: the record plus the
isModified flag for the password path, as tested on line 36. -/
structure UserDoc where
  user : User
  passwordModified : Bool
  deriving Repr, DecidableEq

/-- Pre-save hook (lines 35-39): hash the password exactly when the
password field was modified, otherwise leave the record as is. -/
def preSave (d : UserDoc) : User :=
  if d.passwordModified then { d.user with password := bhash d.user.password }
  else d.user

/-- Claims carried by a session token. -/
structure Claims where
  userId : Nat
  email : String
  deriving Repr, DecidableEq

/-- Signature payload of the idealized message-authentication code:
the secret together with the signed claims, so two signatures agree
exactly when both secret and claims agree (unforgeability idealized
away). -/
def mac (secret : String) (userId : Nat) (email : String) (iat exp : Nat) :
    String × Nat × String × Nat × Nat :=
  (secret, userId, email, iat, exp)

/-- Session token: the embedded claims, issued-at and expiry
timestamps, and the signature. -/
structure Token where
  userId : Nat
  email : String
  iat : Nat
  exp : Nat
  sig : String × Nat × String × Nat × Nat
  deriving Repr, DecidableEq

/-- Seven days in seconds, the expiresIn value of lines 261 and 318. -/
def sevenDays : Nat := 7 * 24 * 60 * 60

/-- Modelled from the spec (4.2): jwt.sign as called on lines 258-262
and 315-319 — the jsonwebtoken library is external to this repository.
Produces a signed token embedding userId and email with issued-at now
and a 7-day expiry. -/
def jwtSign (secret : String) (now : Nat) (userId : Nat) (email : String) : Token :=
  { userId := userId, email := email, iat := now, exp := now + sevenDays,
    sig := mac secret userId email now (now + sevenDays) }

/-- Outcome of token verification. -/
inductive VerifyResult where
  | ok (claims : Claims)
  | invalid
  deriving Repr, DecidableEq

/-- Modelled from the spec (4.2): jwt.verify as called on line 56 —
the jsonwebtoken library is external to this repository.  Succeeds
exactly when the signature matches the secret and claims and the
expiry has not yet elapsed; in this idealized model a malformed token
is one whose signature field fails the check. -/
def jwtVerify (secret : String) (now : Nat) (t : Token) : VerifyResult :=
  if t.sig = mac secret t.userId t.email t.iat t.exp ∧ now < t.exp then
    .ok { userId := t.userId, email := t.email }
  else .invalid

/-- User as attached to the request context by the auth gate: the
result of `.select(\x27-password\x27)` on line 57, which excludes
exactly the password field. -/
structure SafeUser where
  id : Nat
  username : String
  email : String
  favorites : List Favorite
  watchlists : List Watchlist
  deriving Repr, DecidableEq

/-- Projection dropping the password field, modelling
`.select(\x27-password\x27)`. -/
def sanitize (u : User) : SafeUser :=
  { id := u.id, username := u.username, email := u.email,
    favorites := u.favorites, watchlists := u.watchlists }

/-- Split of a character list at every occurrence of the separator,
keeping empty groups, as JavaScript split with a one-character
separator does. -/
def splitOnChar (c : Char) : List Char → List (List Char)
  | [] => [[]]
  | x :: xs =>
    match splitOnChar c xs with
    | [] => [[]]
    | g :: gs => if x = c then [] :: g :: gs else (x :: g) :: gs

/-- JavaScript String.split with a one-character separator. -/
def jsSplit (s : String) (c : Char) : List String :=
  (splitOnChar c s.toList).map List.asString

/-- Token extraction of line 49:
`req.headers.authorization?.split(\x27 \x27)[1]` — the element at
index 1 of the space-split header, with no check of the scheme word at
index 0. -/
def extractToken (authHeader : Option String) : Option String :=
  match authHeader with
  | none => none
  | some h => (jsSplit h ' ').get? 1

/-- Outcome of the auth gate: a 401 JSON rejection, or acceptance with
the sanitized user attached to the request context. -/
inductive AuthOutcome where
  | reject (status : Nat) (message : String)
  | accept (user : SafeUser)
  deriving Repr, DecidableEq

/-- Auth-gate middleware authenticateToken (lines 48-68).  The token
verifier is passed as a function, standing for the external
jwt.verify call with the server secret and current time fixed; the
result pairs the outcome with the store after the middleware ran. -/
def authenticateToken (verify : String → VerifyResult) (store : Store)
    (authHeader : Option String) : AuthOutcome × Store :=
  match extractToken authHeader with
  | none => (.reject 401 "Access token required", store)
  | some tok =>
    if tok = "" then (.reject 401 "Access token required", store)
    else match verify tok with
      | .invalid => (.reject 401 "Invalid token", store)
      | .ok claims =>
        match findById store claims.userId with
        | none => (.reject 401 "Invalid token", store)
        | some u => (.accept (sanitize u), store)

/-- Public-safe user projection returned by register and login
(lines 267-271 and 324-328): identifier, username, email — no
password field exists in this type. -/
structure UserProjection where
  id : Nat
  username : String
  email : String
  deriving Repr, DecidableEq

/-- Response of the register handler. -/
inductive RegisterResponse where
  | err (status : Nat) (message : String)
  | created (status : Nat) (message : String) (user : UserProjection) (token : Token)
  deriving Repr, DecidableEq

/-- Register handler, POST /api/auth/register (lines 230-282): field
presence check, one combined email-or-username lookup, record creation
through the pre-save hook, token issuance, 201 response with the
public projection. -/
def register (secret : String) (now : Nat) (store : Store)
    (username email password : String) : RegisterResponse × Store :=
  if username = "" ∨ email = "" ∨ password = "" then
    (.err 400 "All fields are required", store)
  else
    match findByEmailOrUsername store email username with
    | some _ => (.err 400 "User already exists with this email or username", store)
    | none =>
      let doc : UserDoc :=
        { user := { id := freshId store, username := username, email := email,
                    password := password, favorites := [], watchlists := [] },
          passwordModified := true }
      let saved := preSave doc
      let token := jwtSign secret now saved.id saved.email
      (.created 201 "User registered successfully"
        { id := saved.id, username := saved.username, email := saved.email } token,
       store ++ [saved])

/-- Response of the login handler. -/
inductive LoginResponse where
  | err (status : Nat) (message : String)
  | ok (message : String) (user : UserProjection) (token : Token)
  deriving Repr, DecidableEq

/-- Login handler, POST /api/auth/login (lines 285-339), instrumented
with a cost counter: the second result component counts how many
bcrypt compare invocations the run performed, the shallow stand-in
for the observable timing of the expensive hash comparison. -/
def login (secret : String) (now : Nat) (store : Store)
    (email password : String) : LoginResponse × Nat :=
  if email = "" ∨ password = "" then
    (.err 400 "Email and password are required", 0)
  else
    match findByEmail store email with
    | none => (.err 401 "Invalid email or password", 0)
    | some u =>
      if bcompare password u.password then
        (.ok "Login successful" { id := u.id, username := u.username, email := u.email }
          (jwtSign secret now u.id u.email), 1)
      else (.err 401 "Invalid email or password", 1)

/-- Movie detail returned by the external catalog for one identifier,
with the fields the favorites handler projects (lines 352-357). -/
structure MovieData where
  id : Int
  title : String
  overview : String
  poster_path : String
  release_date : String
  vote_average : Int
  deriving Repr, DecidableEq

/-- Favorite-movie summary built on lines 351-359: the projected
detail fields plus the original addedAt timestamp of the favorite
entry. -/
structure FavSummary where
  id : Int
  title : String
  overview : String
  poster_path : String
  release_date : String
  vote_average : Int
  addedAt : Nat
  deriving Repr, DecidableEq

/-- Per-favorite fetch of lines 348-363: on catalog success the
summary with the original addedAt, on any catalog error null. -/
def fetchFavorite (lookup : Int → Option MovieData) (fav : Favorite) :
    Option FavSummary :=
  match lookup fav.movieId with
  | some d => some { id := d.id, title := d.title, overview := d.overview,
                     poster_path := d.poster_path, release_date := d.release_date,
                     vote_average := d.vote_average, addedAt := fav.addedAt }
  | none => none

/-- JavaScript `.filter(Boolean)` over an array of object-or-null:
keeps the non-null entries in order. -/
def jsFilterBoolean : List (Option FavSummary) → List FavSummary :=
  List.filterMap id

/-- Response of the favorites listing handler; the ok constructor is
the success:true JSON body of lines 366-369. -/
inductive FavListResponse where
  | ok (favorites : List FavSummary)
  | err (status : Nat) (message : String)
  deriving Repr, DecidableEq

/-- Favorites aggregator handler, GET /api/users/favorites
(lines 342-376): reload the user, fan out one catalog lookup per
favorite, drop the failures with filter(Boolean), answer success with
the survivors in favorites order.  The catalog client is the lookup
parameter; a lookup answering none is a failed external call. -/
def getFavoritesHandler (lookup : Int → Option MovieData) (store : Store)
    (uid : Nat) : FavListResponse :=
  match findById store uid with
  | none => .err 500 "Error fetching favorites"
  | some u => .ok (jsFilterBoolean (u.favorites.map (fetchFavorite lookup)))

/-- Ordered subsequence of successfully resolved summaries, written
from the words of the spec (4.5): for each favorite in order, keep the
resolved summary with its original addedAt when the lookup succeeds,
drop the entry when it fails. -/
def aggregatorSpec (lookup : Int → Option MovieData) (favs : List Favorite) :
    List FavSummary :=
  favs.filterMap (fun fav => (lookup fav.movieId).map
    (fun d => { id := d.id, title := d.title, overview := d.overview,
                poster_path := d.poster_path, release_date := d.release_date,
                vote_average := d.vote_average, addedAt := fav.addedAt }))

/-- Response of the add-favorite handler. -/
inductive AddFavResponse where
  | err (status : Nat) (message : String)
  | ok (message : String)
  deriving Repr, DecidableEq

/-- Strict JavaScript equality `fav.movieId === movieId` of line 393
between a stored Number and the raw body value: true only when the
body value is a number with the same value. -/
def strictEqNum (v : JVal) (stored : Int) : Bool :=
  match v with
  | .num n => n == stored
  | _ => false

/-- Accumulating decimal reading of a digit list; none on the first
character that is not a digit. -/
def digitsValAux : Nat → List Char → Option Nat
  | acc, [] => some acc
  | acc, c :: rest =>
    if c.isDigit then digitsValAux (acc * 10 + (c.toNat - 48)) rest else none

/-- Decimal value of a nonempty all-digit character list. -/
def digitsVal : List Char → Option Nat
  | [] => none
  | l => digitsValAux 0 l

/-- Numeric value of an integer-literal string, modelling the
JavaScript Number conversion Mongoose applies for the schema type
Number on the strings the handlers can store; a non-numeric string is
a CastError, surfaced as none. -/
def jsStringToInt (s : String) : Option Int :=
  match s.toList with
  | '-' :: rest => (digitsVal rest).map (fun n => -(n : Int))
  | l => (digitsVal l).map (fun n => (n : Int))

/-- Mongoose Number cast applied on save to a value pushed into the
favorites array (schema line 27): numbers pass through, numeric
strings parse, booleans become 0 or 1, null becomes 0; an unparsable
string is a CastError, surfaced as none. -/
def castNumber : JVal → Option Int
  | .num n => some n
  | .str s => jsStringToInt s
  | .bool b => some (if b then 1 else 0)
  | .null => some 0

/-- Add-favorite handler, POST /api/users/favorites (lines 379-414):
falsy-body check, user reload, strict-equality duplicate check, push
with the current timestamp, save through the pre-save hook with the
password field untouched.  A CastError on save lands in the catch as
the 500 response. -/
def addFavorite (store : Store) (uid : Nat) (body : Option JVal) (now : Nat) :
    AddFavResponse × Store :=
  if !jsTruthy body then (.err 400 "Movie ID is required", store)
  else
    match findById store uid with
    | none => (.err 500 "Error adding to favorites", store)
    | some u =>
      let v := body.getD .null
      if u.favorites.any (fun fav => strictEqNum v fav.movieId) then
        (.err 400 "Movie already in favorites", store)
      else
        match castNumber v with
        | none => (.err 500 "Error adding to favorites", store)
        | some m =>
          let doc : UserDoc :=
            { user := { u with favorites := u.favorites ++ [{ movieId := m, addedAt := now }] },
              passwordModified := false }
          (.ok "Movie added to favorites", updateUser store uid (preSave doc))

/-- Header of the form `Bearer <token>` with a nonempty token, written
from the words of the spec (4.3) for comparison with the extraction
the code actually performs. -/
def isBearerHeader (h : String) : Bool :=
  match jsSplit h ' ' with
  | ["Bearer", t] => !(t == "")
  | _ => false

/-- Concrete registered user for witness scenarios. -/
def anaUser : User :=
  { id := 0, username := "ana", email := "a@x.com", password := bhash "secret1",
    favorites := [], watchlists := [] }

/-- Favorites list of the aggregator scenario of the spec (8). -/
def scenarioFavs : List Favorite :=
  [{ movieId := 101, addedAt := 1 }, { movieId := 202, addedAt := 2 },
   { movieId := 303, addedAt := 3 }]

/-- User holding the scenario favorites. -/
def scenarioUser : User := { anaUser with favorites := scenarioFavs }

/-- Catalog client of the aggregator scenario: lookups for 101 and 303
succeed, the lookup for 202 fails. -/
def scenarioLookup : Int → Option MovieData := fun m =>
  if m == 202 then none
  else if m == 101 || m == 303 then
    some { id := m, title := "Movie", overview := "Plot", poster_path := "/p.jpg",
           release_date := "2020-01-01", vote_average := 7 }
  else none

/-- Token with a signature produced under a different secret, for the
verification-rejection witness. -/
def tamperedToken : Token :=
  { userId := 0, email := "a@x.com", iat := 0, exp := 604800,
    sig := ("other", 0, "a@x.com", 0, 604800) }

/-- Token correctly signed but with an expiry in the past relative to
time 5, for the verification-rejection witness. -/
def expiredToken : Token :=
  { userId := 0, email := "a@x.com", iat := 0, exp := 3,
    sig := mac "sec" 0 "a@x.com" 0 3 }

/-- Concrete verifier for gate witnesses: accepts exactly the string
goodtoken with the claims of anaUser. -/
def goodVerifier : String → VerifyResult := fun t =>
  if t == "goodtoken" then .ok { userId := 0, email := "a@x.com" } else .invalid

/-
  Theorems.
-/

/-- Map-then-filter of the handler equals the filterMap formulation of
the spec. -/
lemma filterBoolean_map_eq (lookup : Int → Option MovieData) (favs : List Favorite) :
    jsFilterBoolean (favs.map (fetchFavorite lookup)) = aggregatorSpec lookup favs := by
  induction favs with
  | nil => rfl
  | cons fav rest ih =>
    unfold jsFilterBoolean aggregatorSpec at ih ⊢
    cases h : lookup fav.movieId with
    | none => simpa [fetchFavorite, h, List.filterMap_cons] using ih
    | some d => simpa [fetchFavorite, h, List.filterMap_cons] using ih

/-- C1: for every favorites list, the aggregator endpoint succeeds and
returns exactly the successfully resolved movie summaries in the
original favorites order — each entry whose external lookup fails is
silently dropped, each success carries its original addedAt timestamp,
and the result is the order-preserving subsequence of successes given
by the filterMap formulation of the spec. -/
theorem favorites_aggregator_correct (lookup : Int → Option MovieData)
    (store : Store) (uid : Nat) (u : User) (hu : findById store uid = some u) :
    getFavoritesHandler lookup store uid = .ok (aggregatorSpec lookup u.favorites) := by
  unfold getFavoritesHandler
  rw [hu]
  exact congrArg _ (filterBoolean_map_eq lookup u.favorites)

/-- Witness for C1: the spec scenario — favorites [101, 202, 303] with
the lookup for 202 failing yields exactly the summaries for 101 and
303 in order, with their original addedAt values 1 and 3. -/
theorem favorites_aggregator_correct_witness :
    getFavoritesHandler scenarioLookup [scenarioUser] 0 =
      .ok (aggregatorSpec scenarioLookup scenarioUser.favorites) ∧
    aggregatorSpec scenarioLookup scenarioUser.favorites =
      [{ id := 101, title := "Movie", overview := "Plot", poster_path := "/p.jpg",
         release_date := "2020-01-01", vote_average := 7, addedAt := 1 },
       { id := 303, title := "Movie", overview := "Plot", poster_path := "/p.jpg",
         release_date := "2020-01-01", vote_average := 7, addedAt := 3 }] :=
  ⟨favorites_aggregator_correct scenarioLookup [scenarioUser] 0 scenarioUser (by decide),
   by decide⟩

/-- C7: verify applied to a freshly issued token succeeds and yields
back exactly the two claims; verify rejects every token whose
signature is not the one the secret produces over its claims, and
every token whose expiry lies at or before the current time. -/
theorem jwt_roundtrip_and_rejection (secret : String) (now : Nat)
    (uid : Nat) (email : String) :
    jwtVerify secret now (jwtSign secret now uid email) =
      .ok { userId := uid, email := email } ∧
    (∀ t : Token, t.sig ≠ mac secret t.userId t.email t.iat t.exp →
      jwtVerify secret now t = .invalid) ∧
    (∀ t : Token, t.exp ≤ now → jwtVerify secret now t = .invalid) := by
  refine ⟨?_, ?_, ?_⟩
  · unfold jwtVerify jwtSign
    rw [if_pos]
    exact ⟨rfl, by simp [sevenDays]⟩
  · intro t h
    unfold jwtVerify
    rw [if_neg]
    intro hc
    exact h hc.1
  · intro t h
    unfold jwtVerify
    rw [if_neg]
    intro hc
    omega

/-- Witness for C7: a concrete round trip at time 5, a concrete token
signed under another secret rejected, a concrete token expired at time
3 rejected at time 5. -/
theorem jwt_roundtrip_and_rejection_witness :
    jwtVerify "sec" 5 (jwtSign "sec" 5 0 "a@x.com") =
      .ok { userId := 0, email := "a@x.com" } ∧
    jwtVerify "sec" 5 tamperedToken = .invalid ∧
    jwtVerify "sec" 5 expiredToken = .invalid :=
  ⟨(jwt_roundtrip_and_rejection "sec" 5 0 "a@x.com").1,
   (jwt_roundtrip_and_rejection "sec" 5 0 "a@x.com").2.1 tamperedToken (by decide),
   (jwt_roundtrip_and_rejection "sec" 5 0 "a@x.com").2.2 expiredToken (by decide)⟩

/-- C9: the auth gate never mutates the store — whatever the verifier,
the store and the header, and whether the outcome is acceptance or
rejection, the store after the middleware ran is the store it
started from. -/
theorem auth_gate_reads_only (verify : String → VerifyResult) (store : Store)
    (header : Option String) :
    (authenticateToken verify store header).2 = store := by
  unfold authenticateToken
  split
  · rfl
  · split
    · rfl
    · split
      · rfl
      · split
        · rfl
        · rfl

/-- Counterexample to C2: the header "Basic abc" is not of the form
Bearer token, yet the gate does not answer "Access token required"
and does consult the token verifier — with a rejecting verifier the
outcome is 401 "Invalid token", and with an accepting verifier over a
store holding the user the very same header is accepted, so the
outcome depends on the verifier and the store. -/
theorem auth_gate_scheme_unchecked_cex :
    isBearerHeader "Basic abc" = false ∧
    authenticateToken (fun _ => .invalid) [] (some "Basic abc") =
      (.reject 401 "Invalid token", []) ∧
    authenticateToken (fun _ => .ok { userId := 0, email := "a@x.com" }) [anaUser]
        (some "Basic abc") =
      (.accept (sanitize anaUser), [anaUser]) :=
  ⟨by decide, by decide, by decide⟩

/-- C2 (amended): the gate answers 401 "Access token required",
independently of the verifier and of the store contents, exactly on
the headers whose extracted token — the second space-split component,
with no check of the scheme word — is missing or empty: an absent
header, a header with no second component, or one whose second
component is the empty string.  A header such as "Basic abc" instead
proceeds to verification with token "abc". -/
theorem auth_gate_missing_token_amended (header : Option String)
    (h : extractToken header = none ∨ extractToken header = some "") :
    ∀ (verify : String → VerifyResult) (store : Store),
      authenticateToken verify store header =
        (.reject 401 "Access token required", store) := by
  intro verify store
  unfold authenticateToken
  cases h with
  | inl h => rw [h]
  | inr h => rw [h]; rfl

/-- Witness for the amended C2: the header "tokenonly" has no second
space-split component, so the gate rejects it with "Access token
required" without consulting the verifier. -/
theorem auth_gate_missing_token_amended_witness :
    (extractToken (some "tokenonly") = none ∨
      extractToken (some "tokenonly") = some "") ∧
    authenticateToken goodVerifier [anaUser] (some "tokenonly") =
      (.reject 401 "Access token required", [anaUser]) :=
  ⟨Or.inl (by decide),
   auth_gate_missing_token_amended (some "tokenonly") (Or.inl (by decide))
     goodVerifier [anaUser]⟩

/-- C3: once a nonempty token was extracted, the gate answers 401
"Invalid token" in exactly two cases — the verifier rejects the token,
or the verified identifier claim matches no stored user — and on
success it attaches the looked-up user with the password field
excluded (sanitize is insensitive to the password) and proceeds. -/
theorem auth_gate_bearer_paths (verify : String → VerifyResult) (store : Store)
    (header : Option String) (tok : String)
    (hx : extractToken header = some tok) (hne : tok ≠ "") :
    ((authenticateToken verify store header).1 = .reject 401 "Invalid token" ↔
      verify tok = .invalid ∨
        ∃ c, verify tok = .ok c ∧ findById store c.userId = none) ∧
    (∀ c u, verify tok = .ok c → findById store c.userId = some u →
      authenticateToken verify store header = (.accept (sanitize u), store)) ∧
    (∀ (u : User) (p : String), sanitize { u with password := p } = sanitize u) := by
  have heq : authenticateToken verify store header =
      (match verify tok with
       | .invalid => (.reject 401 "Invalid token", store)
       | .ok claims =>
         match findById store claims.userId with
         | none => (.reject 401 "Invalid token", store)
         | some u => (.accept (sanitize u), store)) := by
    unfold authenticateToken
    rw [hx]
    simp [hne]
  refine ⟨?_, ?_, fun u p => rfl⟩
  · rw [heq]
    cases hv : verify tok with
    | invalid => simp
    | ok c =>
      cases hf : findById store c.userId with
      | none => simp [hf]
      | some u => simp [hf]
  · intro c u hv hf
    rw [heq]
    simp [hv, hf]

/-- Witness for C3: the header "Bearer goodtoken" with the concrete
verifier and the one-user store is accepted with the sanitized user
attached. -/
theorem auth_gate_bearer_paths_witness :
    extractToken (some "Bearer goodtoken") = some "goodtoken" ∧
    "goodtoken" ≠ "" ∧
    authenticateToken goodVerifier [anaUser] (some "Bearer goodtoken") =
      (.accept (sanitize anaUser), [anaUser]) :=
  ⟨by decide, by decide,
   (auth_gate_bearer_paths goodVerifier [anaUser] (some "Bearer goodtoken")
       "goodtoken" (by decide) (by decide)).2.1
     { userId := 0, email := "a@x.com" } anaUser (by decide) (by decide)⟩

/-- C4: register answers Conflict — HTTP 400 with the combined
message — exactly when a stored user already has the same email OR
the same username, decided by the one combined lookup, leaving the
store untouched; otherwise it persists one new user with the hashed
password and empty favorites and watchlists and answers 201 with a
token and the projection of identifier, username and email; and the
response is independent of the plaintext password, so it can never
carry the password or its hash. -/
theorem register_conflict_and_create (secret : String) (now : Nat) (store : Store)
    (username email password : String)
    (hu : username ≠ "") (he : email ≠ "") (hp : password ≠ "") :
    ((∃ u ∈ store, u.email = email ∨ u.username = username) →
      register secret now store username email password =
        (.err 400 "User already exists with this email or username", store)) ∧
    ((∀ u ∈ store, u.email ≠ email ∧ u.username ≠ username) →
      register secret now store username email password =
        (.created 201 "User registered successfully"
          { id := freshId store, username := username, email := email }
          (jwtSign secret now (freshId store) email),
         store ++ [{ id := freshId store, username := username, email := email,
                     password := bhash password, favorites := [],
                     watchlists := [] }])) ∧
    (∀ p₂, p₂ ≠ "" →
      (register secret now store username email password).1 =
        (register secret now store username email p₂).1) := by
  have hcond : ¬(username = "" ∨ email = "" ∨ password = "") := by
    simp [hu, he, hp]
  refine ⟨?_, ?_, ?_⟩
  · intro hex
    have hsome : ∃ w, findByEmailOrUsername store email username = some w := by
      rw [← Option.isSome_iff_exists, findByEmailOrUsername, List.find?_isSome]
      obtain ⟨u, hmem, hor⟩ := hex
      exact ⟨u, hmem, by rcases hor with h | h <;> simp [h]⟩
    obtain ⟨w, hw⟩ := hsome
    unfold register
    rw [if_neg hcond, hw]
  · intro hnone
    have hfn : findByEmailOrUsername store email username = none := by
      rw [findByEmailOrUsername, List.find?_eq_none]
      intro u hmem
      have h2 := hnone u hmem
      simp [h2.1, h2.2]
    unfold register
    rw [if_neg hcond, hfn]
    rfl
  · intro p₂ hp₂
    have hcond₂ : ¬(username = "" ∨ email = "" ∨ p₂ = "") := by
      simp [hu, he, hp₂]
    unfold register
    rw [if_neg hcond, if_neg hcond₂]
    cases hfind : findByEmailOrUsername store email username with
    | none => rfl
    | some w => rfl

/-- Witness for C4: registering ana on the empty store creates the
record with the hashed password and empty lists and answers 201 with
token and projection; registering the same username again on the
resulting store answers the conflict message and leaves the store
as it was. -/
theorem register_conflict_and_create_witness :
    register "sec" 0 [] "ana" "a@x.com" "secret1" =
      (.created 201 "User registered successfully"
        { id := 0, username := "ana", email := "a@x.com" }
        (jwtSign "sec" 0 0 "a@x.com"),
       [{ id := 0, username := "ana", email := "a@x.com",
          password := bhash "secret1", favorites := [], watchlists := [] }]) ∧
    register "sec" 0 [anaUser] "ana" "b@y.com" "other" =
      (.err 400 "User already exists with this email or username", [anaUser]) :=
  ⟨(register_conflict_and_create "sec" 0 [] "ana" "a@x.com" "secret1"
      (by decide) (by decide) (by decide)).2.1 (by simp),
   (register_conflict_and_create "sec" 0 [anaUser] "ana" "b@y.com" "other"
      (by decide) (by decide) (by decide)).1 ⟨anaUser, by simp, Or.inr rfl⟩⟩

/-- Counterexample to C5: over the one-user store, the unknown-email
run and the wrong-password run both answer 401 with the identical
message, but they are not timing-indistinguishable — the cost
counter of password-hash comparisons is 0 for the first run and 1
for the second, so the two runs differ observably. -/
theorem login_timing_distinguishable_cex :
    (login "sec" 5 [anaUser] "b@x.com" "whatever").1 =
      .err 401 "Invalid email or password" ∧
    (login "sec" 5 [anaUser] "a@x.com" "wrong").1 =
      .err 401 "Invalid email or password" ∧
    (login "sec" 5 [anaUser] "b@x.com" "whatever").2 ≠
      (login "sec" 5 [anaUser] "a@x.com" "wrong").2 :=
  ⟨by decide, by decide, by decide⟩

/-- C5 (amended): for every pair of failing authenticate calls — one
with an unregistered email, one with a registered email and a wrong
password — the two runs return the same error kind, HTTP 401, and the
identical message text "Invalid email or password"; they are however
not timing-indistinguishable: the unknown-email run performs no
password-hash comparison while the wrong-password run performs one,
so the response time can reveal whether the email exists. -/
theorem login_failure_uniform_message_amended (secret : String) (now : Nat)
    (store : Store) (e₁ p₁ e₂ p₂ : String) (u : User)
    (he₁ : e₁ ≠ "") (hp₁ : p₁ ≠ "") (he₂ : e₂ ≠ "") (hp₂ : p₂ ≠ "")
    (hmiss : findByEmail store e₁ = none)
    (hhit : findByEmail store e₂ = some u)
    (hbad : bcompare p₂ u.password = false) :
    (login secret now store e₁ p₁).1 = .err 401 "Invalid email or password" ∧
    (login secret now store e₂ p₂).1 = .err 401 "Invalid email or password" ∧
    (login secret now store e₁ p₁).2 = 0 ∧
    (login secret now store e₂ p₂).2 = 1 := by
  have h₁ : ¬(e₁ = "" ∨ p₁ = "") := by simp [he₁, hp₁]
  have h₂ : ¬(e₂ = "" ∨ p₂ = "") := by simp [he₂, hp₂]
  have r₁ : login secret now store e₁ p₁ =
      (.err 401 "Invalid email or password", 0) := by
    unfold login
    rw [if_neg h₁, hmiss]
  have r₂ : login secret now store e₂ p₂ =
      (.err 401 "Invalid email or password", 1) := by
    unfold login
    rw [if_neg h₂]
    simp [hhit, hbad]
  rw [r₁, r₂]
  exact ⟨rfl, rfl, rfl, rfl⟩

/-- Witness for the amended C5: the concrete unknown-email and
wrong-password runs over the one-user store. -/
theorem login_failure_uniform_message_amended_witness :
    (login "sec" 5 [anaUser] "b@x.com" "whatever").1 =
      .err 401 "Invalid email or password" ∧
    (login "sec" 5 [anaUser] "a@x.com" "wrong").1 =
      .err 401 "Invalid email or password" ∧
    (login "sec" 5 [anaUser] "b@x.com" "whatever").2 = 0 ∧
    (login "sec" 5 [anaUser] "a@x.com" "wrong").2 = 1 :=
  login_failure_uniform_message_amended "sec" 5 [anaUser] "b@x.com" "whatever"
    "a@x.com" "wrong" anaUser (by decide) (by decide) (by decide) (by decide)
    (by decide) (by decide) (by decide)

/-- Record found by identifier has that identifier. -/
lemma findById_id {store : Store} {uid : Nat} {u : User}
    (h : findById store uid = some u) : u.id = uid := by
  have := List.find?_some h
  simpa using this

/-- Record found by identifier is in the store. -/
lemma findById_mem {store : Store} {uid : Nat} {u : User}
    (h : findById store uid = some u) : u ∈ store :=
  List.mem_of_find?_eq_some h

/-- Lookup after replacement: when the identifier was present, the
lookup finds the replacement. -/
lemma findById_updateUser {store : Store} {uid : Nat} {u : User} (w : User)
    (h : findById store uid = some u) (hw : w.id = uid) :
    findById (updateUser store uid w) uid = some w := by
  induction store with
  | nil => simp [findById] at h
  | cons a l ih =>
    by_cases ha : a.id = uid
    · have hb : (a.id == uid) = true := by simpa using ha
      have hwb : (w.id == uid) = true := by simpa using hw
      simp [findById, updateUser, List.find?, hb, hwb]
    · have hbf : (a.id == uid) = false := by simpa using ha
      have hnb : ¬((a.id == uid) = true) := by simp [hbf]
      have h2 : findById l uid = some u := by
        unfold findById at h ⊢
        simp only [List.find?, hbf] at h
        exact h
      have goal2 := ih h2
      unfold findById updateUser at goal2 ⊢
      rw [List.map_cons, if_neg hnb,
        @List.find?_cons_of_neg User (fun v => v.id == uid) a
          (List.map (fun v => if (v.id == uid) = true then w else v) l) hnb]
      exact goal2

/-- Branch of addFavorite for a falsy body value. -/
lemma addFavorite_falsy (store : Store) (uid : Nat) (body : Option JVal) (n : Nat)
    (h : jsTruthy body = false) :
    addFavorite store uid body n = (.err 400 "Movie ID is required", store) := by
  unfold addFavorite
  rw [h]
  rfl

/-- Branch of addFavorite when the user lookup fails. -/
lemma addFavorite_no_user (store : Store) (uid : Nat) (body : Option JVal) (n : Nat)
    (ht : jsTruthy body = true) (hf : findById store uid = none) :
    addFavorite store uid body n = (.err 500 "Error adding to favorites", store) := by
  unfold addFavorite
  rw [ht]
  simp [hf]

/-- Branch of addFavorite when the strict-equality duplicate check
fires. -/
lemma addFavorite_duplicate (store : Store) (uid : Nat) (body : Option JVal)
    (n : Nat) (u : User)
    (ht : jsTruthy body = true) (hf : findById store uid = some u)
    (hd : (u.favorites.any fun fav => strictEqNum (body.getD .null) fav.movieId) = true) :
    addFavorite store uid body n = (.err 400 "Movie already in favorites", store) := by
  unfold addFavorite
  rw [ht]
  simp [hf, hd]

/-- Branch of addFavorite when the pushed value fails the Number
cast. -/
lemma addFavorite_badcast (store : Store) (uid : Nat) (body : Option JVal)
    (n : Nat) (u : User)
    (ht : jsTruthy body = true) (hf : findById store uid = some u)
    (hd : (u.favorites.any fun fav => strictEqNum (body.getD .null) fav.movieId) = false)
    (hc : castNumber (body.getD .null) = none) :
    addFavorite store uid body n = (.err 500 "Error adding to favorites", store) := by
  unfold addFavorite
  rw [ht]
  simp [hf, hd, hc]

/-- Success branch of addFavorite: the favorite is appended and the
record saved with the password field untouched. -/
lemma addFavorite_success (store : Store) (uid : Nat) (body : Option JVal)
    (n : Nat) (u : User) (m : Int)
    (ht : jsTruthy body = true) (hf : findById store uid = some u)
    (hd : (u.favorites.any fun fav => strictEqNum (body.getD .null) fav.movieId) = false)
    (hc : castNumber (body.getD .null) = some m) :
    addFavorite store uid body n =
      (.ok "Movie added to favorites",
       updateUser store uid
         { u with favorites := u.favorites ++ [{ movieId := m, addedAt := n }] }) := by
  unfold addFavorite
  rw [ht]
  simp [hf, hd, hc, preSave]

/-- Membership in the store after any addFavorite call: a record was
already there, or it is the addressed user with one appended
favorite whose identifier passed the Number cast after the
strict-equality duplicate check did not fire. -/
lemma addFavorite_mem (store : Store) (uid : Nat) (body : Option JVal) (n : Nat)
    (w : User) (hw : w ∈ (addFavorite store uid body n).2) :
    w ∈ store ∨
    ∃ u m, findById store uid = some u ∧
      castNumber (body.getD .null) = some m ∧
      (u.favorites.any fun fav => strictEqNum (body.getD .null) fav.movieId) = false ∧
      w = { u with favorites := u.favorites ++ [{ movieId := m, addedAt := n }] } := by
  by_cases ht : jsTruthy body = true
  · cases hf : findById store uid with
    | none =>
      rw [addFavorite_no_user store uid body n ht hf] at hw
      exact Or.inl hw
    | some u =>
      by_cases hd : (u.favorites.any fun fav => strictEqNum (body.getD .null) fav.movieId) = true
      · rw [addFavorite_duplicate store uid body n u ht hf hd] at hw
        exact Or.inl hw
      · have hd2 : (u.favorites.any fun fav => strictEqNum (body.getD .null) fav.movieId) = false := by
          simpa using hd
        cases hc : castNumber (body.getD .null) with
        | none =>
          rw [addFavorite_badcast store uid body n u ht hf hd2 hc] at hw
          exact Or.inl hw
        | some m =>
          rw [addFavorite_success store uid body n u m ht hf hd2 hc] at hw
          have hw2 : w ∈ List.map
              (fun v => if v.id == uid then
                { u with favorites := u.favorites ++ [{ movieId := m, addedAt := n }] }
                else v) store := hw
          rcases List.mem_map.mp hw2 with ⟨a, ha, hcase⟩
          by_cases hid : (a.id == uid) = true
          · rw [if_pos hid] at hcase
            exact Or.inr ⟨u, m, rfl, rfl, hd2, hcase.symm⟩
          · rw [if_neg hid] at hcase
            exact Or.inl (hcase ▸ ha)
  · have ht2 : jsTruthy body = false := by simpa using ht
    rw [addFavorite_falsy store uid body n ht2] at hw
    exact Or.inl hw

/-- C6: adding the same movie identifier twice in sequence yields
Conflict — HTTP 400, "Movie already in favorites" — on the second
call, leaves the store of the first call unchanged and leaves exactly
one favorites entry for that identifier; and every sequential
add-favorite call with an integer movie identifier preserves the
invariant that a movie identifier occurs at most once in one user
record's favorites list. -/
theorem add_favorite_unique_invariant :
    (∀ (store : Store) (uid : Nat) (u : User) (m : Int) (n₁ n₂ : Nat),
      findById store uid = some u → m ≠ 0 →
      (∀ f ∈ u.favorites, f.movieId ≠ m) →
      (addFavorite (addFavorite store uid (some (.num m)) n₁).2 uid
          (some (.num m)) n₂).1 = .err 400 "Movie already in favorites" ∧
      (addFavorite (addFavorite store uid (some (.num m)) n₁).2 uid
          (some (.num m)) n₂).2 = (addFavorite store uid (some (.num m)) n₁).2 ∧
      ∃ w, findById (addFavorite (addFavorite store uid (some (.num m)) n₁).2 uid
          (some (.num m)) n₂).2 uid = some w ∧
        (w.favorites.filter fun f => f.movieId == m).length = 1) ∧
    (∀ (store : Store) (uid : Nat) (m : Int) (n : Nat),
      (∀ v ∈ store, (v.favorites.map Favorite.movieId).Nodup) →
      ∀ w ∈ (addFavorite store uid (some (.num m)) n).2,
        (w.favorites.map Favorite.movieId).Nodup) := by
  constructor
  · intro store uid u m n₁ n₂ hf hm hfresh
    have ht : jsTruthy (some (JVal.num m)) = true := by
      simp [jsTruthy, JVal.falsy, hm]
    have hd₁ : (u.favorites.any fun fav =>
        strictEqNum ((some (JVal.num m)).getD .null) fav.movieId) = false := by
      rw [List.any_eq_false]
      intro f hfav
      simp only [Option.getD_some, strictEqNum, beq_iff_eq]
      exact fun heq => hfresh f hfav heq.symm
    have hc : castNumber ((some (JVal.num m)).getD .null) = some m := rfl
    have step1 := addFavorite_success store uid (some (.num m)) n₁ u m ht hf hd₁ hc
    have hid : ({ u with favorites := u.favorites ++ [{ movieId := m, addedAt := n₁ }] }
        : User).id = uid := @findById_id store uid u hf
    have hw₁ : findById
        (updateUser store uid
          { u with favorites := u.favorites ++ [{ movieId := m, addedAt := n₁ }] }) uid =
        some { u with favorites := u.favorites ++ [{ movieId := m, addedAt := n₁ }] } :=
      findById_updateUser _ hf hid
    have hd₂ : (({ u with favorites := u.favorites ++ [{ movieId := m, addedAt := n₁ }] }
        : User).favorites.any fun fav =>
        strictEqNum ((some (JVal.num m)).getD .null) fav.movieId) = true := by
      rw [List.any_eq_true]
      exact ⟨{ movieId := m, addedAt := n₁ }, by simp, by simp [strictEqNum]⟩
    have step2 := addFavorite_duplicate
      (updateUser store uid
        { u with favorites := u.favorites ++ [{ movieId := m, addedAt := n₁ }] })
      uid (some (.num m)) n₂ _ ht hw₁ hd₂
    refine ⟨by simp only [step1]; simp only [step2], by simp only [step1]; simp only [step2],
      { u with favorites := u.favorites ++ [{ movieId := m, addedAt := n₁ }] }, ?_, ?_⟩
    · simp only [step1]
      simp only [step2]
      exact hw₁
    · have hflt : (u.favorites.filter fun f => f.movieId == m) = [] := by
        rw [List.filter_eq_nil_iff]
        intro f hfav
        simp only [beq_iff_eq]
        exact hfresh f hfav
      simp [List.filter_append, hflt]
  · intro store uid m n hstore w hw
    rcases addFavorite_mem store uid (some (.num m)) n w hw with hmem | ⟨u, m₂, hf, hc, hd, heq⟩
    · exact hstore w hmem
    · have hm₂ : m₂ = m := by
        simpa [castNumber] using hc.symm
      subst hm₂
      rw [heq]
      have hnodup := hstore u (findById_mem hf)
      have hnotin : ∀ f ∈ u.favorites, f.movieId ≠ m₂ := by
        intro f hfav heq2
        have hany : (u.favorites.any fun fav =>
            strictEqNum ((some (JVal.num m₂)).getD .null) fav.movieId) = true := by
          rw [List.any_eq_true]
          exact ⟨f, hfav, by simp [strictEqNum, heq2]⟩
        rw [hd] at hany
        exact Bool.false_ne_true hany
      simp only [List.map_append, List.map_cons, List.map_nil]
      rw [List.nodup_append]
      refine ⟨hnodup, by simp, ?_⟩
      intro x hx1 hx2
      simp only [List.mem_singleton] at hx2
      rcases List.mem_map.mp hx1 with ⟨f, hfav, hfx⟩
      exact hnotin f hfav (hfx.trans hx2)

/-- Witness for C6: over the one-user store, adding movie 7 then
adding movie 7 again conflicts on the second call and leaves exactly
one entry for 7. -/
theorem add_favorite_unique_invariant_witness :
    (addFavorite (addFavorite [anaUser] 0 (some (.num 7)) 10).2 0
        (some (.num 7)) 11).1 = .err 400 "Movie already in favorites" ∧
    (addFavorite (addFavorite [anaUser] 0 (some (.num 7)) 10).2 0
        (some (.num 7)) 11).2 = (addFavorite [anaUser] 0 (some (.num 7)) 10).2 ∧
    ∃ w, findById (addFavorite (addFavorite [anaUser] 0 (some (.num 7)) 10).2 0
        (some (.num 7)) 11).2 0 = some w ∧
      (w.favorites.filter fun f => f.movieId == 7).length = 1 :=
  add_favorite_unique_invariant.1 [anaUser] 0 anaUser 7 10 11
    (by decide) (by decide) (by decide)

/-- C8: the hashing step of the pre-save hook runs exactly when the
password field was modified; the hash differs from the plaintext;
every record the register handler adds carries the hashed password;
and every record present after an add-favorite call keeps, identifier
for identifier, the stored password of a record that was already in
the store — an unrelated persist never re-hashes. -/
theorem password_hash_exactly_on_modify :
    (∀ d : UserDoc, (preSave d).password =
        if d.passwordModified then bhash d.user.password else d.user.password) ∧
    (∀ p : String, bhash p ≠ p) ∧
    (∀ (secret : String) (now : Nat) (store : Store) (un em pw : String),
      ∀ w ∈ (register secret now store un em pw).2,
        w ∈ store ∨ w.password = bhash pw) ∧
    (∀ (store : Store) (uid : Nat) (body : Option JVal) (n : Nat),
      ∀ w ∈ (addFavorite store uid body n).2,
        ∃ v ∈ store, w.id = v.id ∧ w.password = v.password) := by
  refine ⟨?_, ?_, ?_, ?_⟩
  · intro d
    rcases d with ⟨du, bm⟩
    cases bm <;> rfl
  · intro p h
    have hlen := congrArg String.length h
    unfold bhash at hlen
    rw [String.length_append] at hlen
    have h9 : ("bcrypt12$" : String).length = 9 := rfl
    rw [h9] at hlen
    omega
  · intro secret now store un em pw w hw
    by_cases hc : un = "" ∨ em = "" ∨ pw = ""
    · unfold register at hw
      rw [if_pos hc] at hw
      exact Or.inl hw
    · unfold register at hw
      rw [if_neg hc] at hw
      cases hfind : findByEmailOrUsername store em un with
      | some x =>
        rw [hfind] at hw
        exact Or.inl hw
      | none =>
        rw [hfind] at hw
        have hw2 : w ∈ store ++ [(⟨freshId store, un, em, bhash pw, [], []⟩ : User)] := hw
        rcases List.mem_append.mp hw2 with h | h
        · exact Or.inl h
        · right
          rw [List.mem_singleton.mp h]
  · intro store uid body n w hw
    rcases addFavorite_mem store uid body n w hw with hmem | ⟨u, m, hf, hc, hd, heq⟩
    · exact ⟨w, hmem, rfl, rfl⟩
    · exact ⟨u, findById_mem hf, by rw [heq], by rw [heq]⟩

/-- Witness for C8: the record created by registering ana carries the
hash of secret1, and after adding a favorite the stored record keeps
the password of the original record. -/
theorem password_hash_exactly_on_modify_witness :
    (anaUser ∈ ([] : Store) ∨ anaUser.password = bhash "secret1") ∧
    (∃ v ∈ [anaUser],
      ({ anaUser with favorites := [{ movieId := 7, addedAt := 10 }] } : User).id = v.id ∧
      ({ anaUser with favorites := [{ movieId := 7, addedAt := 10 }] } : User).password =
        v.password) :=
  ⟨password_hash_exactly_on_modify.2.2.1 "sec" 0 [] "ana" "a@x.com" "secret1"
      anaUser (by decide),
   password_hash_exactly_on_modify.2.2.2 [anaUser] 0 (some (.num 7)) 10
      { anaUser with favorites := [{ movieId := 7, addedAt := 10 }] } (by decide)⟩

/-- Counterexample to C10: the string "0" in the movieId field is
truthy, passes the presence check and the strict-equality duplicate
check, and is cast to the number 0 on save — so an entry with movie
identifier 0 is added to the favorites, contradicting that the
identifier 0 can never be added. -/
theorem add_favorite_zero_via_string_cex :
    jsTruthy (some (JVal.str "0")) = true ∧
    addFavorite [anaUser] 0 (some (.str "0")) 10 =
      (.ok "Movie added to favorites",
       [{ anaUser with favorites := [{ movieId := 0, addedAt := 10 }] }]) :=
  ⟨by decide, by decide⟩

/-- C10 (amended): for every authenticated add-favorite request whose
body movieId is a falsy value — absent, null, the empty string, the
integer 0, or false — the handler answers HTTP 400 "Movie ID is
required" with the store untouched and without depending on the store
contents; the integer 0 itself can therefore not be added directly,
but the check does not prevent the identifier 0 from entering the
favorites: the truthy string "0" passes the check, evades the
strict-equality duplicate comparison against stored numbers, and is
cast to the number 0 on save. -/
theorem add_favorite_falsy_reject_amended :
    (jsTruthy none = false ∧ jsTruthy (some JVal.null) = false ∧
     jsTruthy (some (JVal.str "")) = false ∧ jsTruthy (some (JVal.num 0)) = false ∧
     jsTruthy (some (JVal.bool false)) = false) ∧
    (∀ (store : Store) (uid : Nat) (body : Option JVal) (n : Nat),
      jsTruthy body = false →
      addFavorite store uid body n = (.err 400 "Movie ID is required", store)) ∧
    (∀ (store : Store) (uid : Nat) (u : User) (n : Nat),
      findById store uid = some u →
      addFavorite store uid (some (.str "0")) n =
        (.ok "Movie added to favorites",
         updateUser store uid
           { u with favorites := u.favorites ++ [{ movieId := 0, addedAt := n }] })) := by
  refine ⟨by decide, addFavorite_falsy, ?_⟩
  intro store uid u n hf
  refine addFavorite_success store uid (some (.str "0")) n u 0 (by decide) hf ?_ (by decide)
  rw [List.any_eq_false]
  intro f hfav
  simp [strictEqNum]

/-- Witness for the amended C10: the falsy integer 0 is rejected with
the store untouched, while the string "0" adds the entry with movie
identifier 0. -/
theorem add_favorite_falsy_reject_amended_witness :
    addFavorite [anaUser] 0 (some (JVal.num 0)) 10 =
      (.err 400 "Movie ID is required", [anaUser]) ∧
    addFavorite [anaUser] 0 (some (.str "0")) 10 =
      (.ok "Movie added to favorites",
       updateUser [anaUser] 0
         { anaUser with favorites := anaUser.favorites ++
             [{ movieId := 0, addedAt := 10 }] }) :=
  ⟨add_favorite_falsy_reject_amended.2.1 [anaUser] 0 (some (JVal.num 0)) 10 (by decide),
   add_favorite_falsy_reject_amended.2.2 [anaUser] 0 anaUser 10 (by decide)⟩

end MovieApp
